import Mathlib

/-!
Shallow embedding of the "Any" type-erased value container (src/src/any.c)
and proofs about its storage/ownership contract.

Modelling conventions:
* A box (`struct Any`) is a record of its five fields.  The heap buffer
  `void *value` is `Option (List Nat)`: `none` is the NULL pointer, and
  `some bs` is a buffer whose bytes are `bs` (one `Nat` per byte).
* A handle (`Any *`) is `AnyHandle`: the NULL pointer, the `Any_null`
  sentinel, or a live box given by its contents.  Operations that mutate a
  box return the updated handle; calling them on `null`/`sentinel` leaves
  the handle unchanged, mirroring the early-return guards in the C code.
* Allocation success (`calloc`/`realloc` returning non-NULL) is an explicit
  boolean oracle parameter, so both the success and the failure path of the
  C code are captured.
* `Any_Create` also returns the net number of live allocations made by the
  call (the `Any_calloc`/`Any_free` counter deltas of `any.c`), so that the
  "failed create fully tears down partial allocations" behaviour is visible.
* For `Any_Equals` pointer identity matters (`self == other`), so equality
  is modelled over abstract addresses `AnyPtr` together with a heap
  `H : Nat → AnyBox` giving the contents at each live address.
* `TypeID` (`uint64_t`) and `size_t` values are modelled as `Nat`: the
  engine only stores and compares them, never computes with them, so
  wrap-around cannot be observed.
-/

namespace AnySpec

/-- `struct Any` from src/src/any.c lines 13–19. -/
structure AnyBox where
  type : Nat
  size : Nat
  value : Option (List Nat)
  has_value : Bool
  is_user_defined : Bool
deriving DecidableEq

/-- An `Any *` handle: NULL, the `Any_null` sentinel, or a live box. -/
inductive AnyHandle where
  | null
  | sentinel
  | live (b : AnyBox)
deriving DecidableEq

/-- The static `Any_null_value = {0}` object behind the `Any_null` sentinel. -/
def Any_null_value : AnyBox :=
  { type := 0, size := 0, value := none, has_value := false, is_user_defined := false }

/-- `Any_IsNull`: true iff the pointer is NULL or equals `Any_null`. -/
def Any_IsNull : AnyHandle → Bool
  | .null => true
  | .sentinel => true
  | .live _ => false

/-- The allocation-counter effect of `Any_Destroy` on a box reached with
`count` live allocations: frees the buffer if present, then the header
unless the box is user-defined (`any.c` lines 237–244). -/
def Any_DestroyDelta (b : AnyBox) (count : Nat) : Nat :=
  let c1 := if b.value.isSome then count - 1 else count
  if b.is_user_defined then c1 else c1 - 1

/-- `Any_Create(type, size)` (`any.c` lines 101–114).  `hOk` is whether the
header `Any_calloc` succeeds, `bOk` whether the buffer `Any_calloc` does.
Returns the created box (or `none` on failure) together with the net number
of allocations still live after the call. -/
def Any_Create (type size : Nat) (hOk bOk : Bool) : Option AnyBox × Nat :=
  if hOk then
    let self : AnyBox :=
      { type := type, size := size, value := none,
        has_value := false, is_user_defined := false }
    if bOk then
      (some { self with value := some (List.replicate size 0) }, 2)
    else
      (none, Any_DestroyDelta self 1)
  else
    (none, 0)

/-- `Any_Reset` (`any.c` lines 116–125): only when `has_value` is set does it
free the buffer and zero `value`, `has_value`, `size`, `type`. -/
def Any_Reset : AnyHandle → AnyHandle
  | .live b =>
      if b.has_value then
        .live { b with value := none, has_value := false, size := 0, type := 0 }
      else
        .live b
  | h => h

/-- `Any_Set(self, type, value, size)` (`any.c` lines 127–140).  `value` is
the byte region the caller passes (`none` = NULL pointer); `allocOk` is
whether the `Any_realloc` in the resize branch succeeds.  Returns whether
the call returned non-NULL, together with the handle's new state.  The
resize branch installs the first `size` source bytes in a fresh buffer; the
equal-size branch `memcpy`s the first `size` bytes over the existing buffer
(a NULL buffer stays NULL: `memcpy` then moves zero bytes in any defined
execution, where `size` must be 0). -/
def Any_Set (h : AnyHandle) (type : Nat) (value : Option (List Nat)) (size : Nat)
    (allocOk : Bool) : Bool × AnyHandle :=
  match value, h with
  | none, _ => (false, h)
  | some _, .null => (false, h)
  | some _, .sentinel => (false, h)
  | some bs, .live b =>
      if b.size ≠ size then
        if allocOk then
          (true, .live { b with size := size, value := some (List.take size bs),
                                type := type, has_value := true })
        else
          (false, .live b)
      else
        (true, .live { b with
          value := b.value.map (fun old => List.take size bs ++ List.drop size old),
          type := type, has_value := true })

/-- `Any_Get` (`any.c` lines 142–144): the stored buffer pointer, NULL for a
null/absent handle. -/
def Any_Get : AnyHandle → Option (List Nat)
  | .live b => b.value
  | _ => none

/-- `Any_Size` (`any.c` lines 146–148), declared as `Any_GetSize` in any.h. -/
def Any_Size : AnyHandle → Nat
  | .live b => b.size
  | _ => 0

/-- `Any_Type` (`any.c` lines 150–152), declared as `Any_GetType` in any.h. -/
def Any_Type : AnyHandle → Nat
  | .live b => b.type
  | _ => 0

/-- The accessor name used by any.h and the tests. -/
def Any_GetSize : AnyHandle → Nat := Any_Size

/-- The accessor name used by any.h and the tests. -/
def Any_GetType : AnyHandle → Nat := Any_Type

/-- `Any_HasValue` (`any.c` lines 154–156). -/
def Any_HasValue : AnyHandle → Bool
  | .live b => b.has_value
  | _ => false

/-- `Any_Copy` (`any.c` lines 181–194): fails on a null/absent or
unpopulated source; otherwise `Any_Create(type, size)` (with oracle flags
`hOk`, `bOk`) followed by a `memcpy` of `size` bytes and `has_value = true`. -/
def Any_Copy (h : AnyHandle) (hOk bOk : Bool) : Option AnyBox :=
  match h with
  | .null => none
  | .sentinel => none
  | .live b =>
      if b.has_value then
        match (Any_Create b.type b.size hOk bOk).fst with
        | none => none
        | some c =>
            some { c with value := some (List.take b.size (b.value.getD [])),
                          has_value := true }
      else
        none

/-- `Any_Move(dest, src)` (`any.c` lines 196–215) on two distinct boxes:
frees dest's buffer, copies src's `type`/`size`/`value`/`has_value` into
dest (leaving `dest->is_user_defined` alone), then zeroes those four fields
of src without freeing the transferred buffer. -/
def Any_Move (dest src : AnyHandle) : AnyHandle × AnyHandle :=
  match dest, src with
  | .live d, .live s =>
      (.live { type := s.type, size := s.size, value := s.value,
               has_value := s.has_value, is_user_defined := d.is_user_defined },
       .live { s with type := 0, size := 0, value := none, has_value := false })
  | _, _ => (dest, src)

/-- `Any_Swap` (`any.c` lines 217–235) on two distinct boxes: exchanges
`type`, `size`, `value`, `has_value` through temporaries; `is_user_defined`
is not touched. -/
def Any_Swap (a b : AnyHandle) : AnyHandle × AnyHandle :=
  match a, b with
  | .live x, .live y =>
      (.live { type := y.type, size := y.size, value := y.value,
               has_value := y.has_value, is_user_defined := x.is_user_defined },
       .live { type := x.type, size := x.size, value := x.value,
               has_value := x.has_value, is_user_defined := y.is_user_defined })
  | _, _ => (a, b)

/-- `Any_Destroy` (`any.c` lines 237–244): no-op on null/sentinel; otherwise
frees the buffer, zeroes `type`/`size`/`value`, and frees the header unless
the box is user-defined.  Returns `none` when the header itself was freed
(the handle is dead), and threads the live-allocation count. -/
def Any_Destroy (h : AnyHandle) (count : Nat) : Option AnyHandle × Nat :=
  match h with
  | .null => (some .null, count)
  | .sentinel => (some .sentinel, count)
  | .live b =>
      let c1 := if b.value.isSome then count - 1 else count
      if b.is_user_defined then
        (some (.live { b with type := 0, size := 0, value := none }), c1)
      else
        (none, c1 - 1)

/-- Abstract addresses for the pointer-identity aspects of `Any_Equals`:
NULL, the unique address of `Any_null`, or a live address. -/
inductive AnyPtr where
  | null
  | sentinel
  | live (addr : Nat)
deriving DecidableEq

/-- Dereference an address in heap `H` (NULL is never dereferenced by the
guarded code; the sentinel's contents are `Any_null_value`). -/
def derefC (H : Nat → AnyBox) : AnyPtr → AnyBox
  | .null => Any_null_value
  | .sentinel => Any_null_value
  | .live i => H i

/-- `memcmp(x, y, n) == 0`: the first `n` bytes of the two buffers agree
(zero bytes are compared when a buffer is NULL, which defined executions
only reach with `n = 0`). -/
def memcmpEqZero (x y : Option (List Nat)) (n : Nat) : Bool :=
  decide (List.take n (x.getD []) = List.take n (y.getD []))

/-- `Any_Equals` (`any.c` lines 166–175): false if either pointer is NULL
(the sentinel is NOT caught by this guard); true on pointer identity;
otherwise field-by-field comparison with a `memcmp` over `self->size`
bytes. -/
def Any_Equals (H : Nat → AnyBox) (a b : AnyPtr) : Bool :=
  match a, b with
  | .null, _ => false
  | _, .null => false
  | a, b =>
      if a = b then true
      else
        let x := derefC H a
        let y := derefC H b
        decide (x.has_value = y.has_value) && decide (x.type = y.type) &&
          decide (x.size = y.size) && memcmpEqZero x.value y.value x.size

/-- The length/storage invariant of a box: the recorded `size` is the byte
size of the owned buffer, and an absent buffer means size 0. -/
def wf (b : AnyBox) : Bool :=
  match b.value with
  | some bs => decide (bs.length = b.size)
  | none => decide (b.size = 0)

/-- Box states reachable from a successful `Any_Create` through any sequence
of `Any_Set` (with a defined call: the source region has `size` bytes),
`Any_Reset`, `Any_Move`, `Any_Swap` and `Any_Copy`, where the partner box of
a `move`/`swap` is itself reachable. -/
inductive Reachable : AnyBox → Prop
  | create (t s : Nat) (hOk bOk : Bool) (b : AnyBox) :
      (Any_Create t s hOk bOk).fst = some b → Reachable b
  | set (b : AnyBox) (t : Nat) (bs : List Nat) (size : Nat) (aOk : Bool) (b' : AnyBox) :
      Reachable b → bs.length = size →
      (Any_Set (.live b) t (some bs) size aOk).snd = .live b' → Reachable b'
  | reset (b b' : AnyBox) :
      Reachable b → Any_Reset (.live b) = .live b' → Reachable b'
  | move_dest (d s d' : AnyBox) (s2 : AnyHandle) :
      Reachable d → Reachable s →
      Any_Move (.live d) (.live s) = (.live d', s2) → Reachable d'
  | move_src (d s s' : AnyBox) (d2 : AnyHandle) :
      Reachable d → Reachable s →
      Any_Move (.live d) (.live s) = (d2, .live s') → Reachable s'
  | swap_fst (a b a' : AnyBox) (b2 : AnyHandle) :
      Reachable a → Reachable b →
      Any_Swap (.live a) (.live b) = (.live a', b2) → Reachable a'
  | swap_snd (a b b' : AnyBox) (a2 : AnyHandle) :
      Reachable a → Reachable b →
      Any_Swap (.live a) (.live b) = (a2, .live b') → Reachable b'
  | copy (b c : AnyBox) (hOk bOk : Bool) :
      Reachable b → Any_Copy (.live b) hOk bOk = some c → Reachable c

/-- C2: Move empties its source — for every pair of distinct non-null boxes,
after `Any_Move(dest, src)` the source reports `Any_HasValue = false`, tag 0,
size 0 and a NULL buffer, and the destination holds exactly the tag, length,
populated flag and payload bytes that the source held before the call. -/
theorem c2_move_empties_source :
    ∀ d s : AnyBox,
      Any_HasValue (Any_Move (.live d) (.live s)).snd = false ∧
      Any_GetType (Any_Move (.live d) (.live s)).snd = 0 ∧
      Any_GetSize (Any_Move (.live d) (.live s)).snd = 0 ∧
      Any_Get (Any_Move (.live d) (.live s)).snd = none ∧
      (Any_Move (.live d) (.live s)).fst =
        .live { type := s.type, size := s.size, value := s.value,
                has_value := s.has_value, is_user_defined := d.is_user_defined } ∧
      (Any_Move (.live d) (.live s)).snd =
        .live { type := 0, size := 0, value := none, has_value := false,
                is_user_defined := s.is_user_defined } := by
  intro d s
  simp [Any_Move, Any_HasValue, Any_GetType, Any_Type, Any_GetSize, Any_Size, Any_Get]

/-- C6: Swap is a full exchange and involutive — for every pair of non-null
boxes, `Any_Swap` gives each the other's tag, length, buffer and populated
flag (neither side is emptied), and swapping twice restores both boxes. -/
theorem c6_swap_exchange_involutive :
    ∀ a b : AnyBox,
      (Any_Swap (.live a) (.live b)).fst =
        .live { type := b.type, size := b.size, value := b.value,
                has_value := b.has_value, is_user_defined := a.is_user_defined } ∧
      (Any_Swap (.live a) (.live b)).snd =
        .live { type := a.type, size := a.size, value := a.value,
                has_value := a.has_value, is_user_defined := b.is_user_defined } ∧
      Any_HasValue (Any_Swap (.live a) (.live b)).fst = b.has_value ∧
      Any_HasValue (Any_Swap (.live a) (.live b)).snd = a.has_value ∧
      Any_Swap (Any_Swap (.live a) (.live b)).fst (Any_Swap (.live a) (.live b)).snd =
        (.live a, .live b) := by
  intro a b
  refine ⟨rfl, rfl, rfl, rfl, ?_⟩
  simp [Any_Swap]

/-- C7: Create postcondition — `Any_Create(tag, length)` either fails with a
null result and zero net live allocations (any partial allocation is torn
down), or returns a box carrying the given tag, the given size, a buffer of
`length` zero bytes, and `has_value = false` (so `Any_HasValue` is false)
even though the buffer is allocated. -/
theorem c7_create_postcondition :
    ∀ (t s : Nat) (hOk bOk : Bool),
      ((Any_Create t s hOk bOk).fst = none ∧ (Any_Create t s hOk bOk).snd = 0) ∨
      (hOk = true ∧ bOk = true ∧
        (Any_Create t s hOk bOk).fst =
          some (AnyBox.mk t s (some (List.replicate s 0)) false false) ∧
        Any_HasValue (.live (AnyBox.mk t s (some (List.replicate s 0)) false false))
          = false ∧
        Any_GetSize (.live (AnyBox.mk t s (some (List.replicate s 0)) false false))
          = s ∧
        Any_GetType (.live (AnyBox.mk t s (some (List.replicate s 0)) false false))
          = t) := by
  intro t s hOk bOk
  cases hOk <;> cases bOk <;>
    simp [Any_Create, Any_DestroyDelta, Any_HasValue, Any_GetSize, Any_Size,
          Any_GetType, Any_Type]

/-- C8: Null/absent neutrality — on the NULL pointer and on the `Any_null`
sentinel, `Any_Get` returns NULL, `Any_Size`/`Any_GetSize` returns 0,
`Any_Type`/`Any_GetType` returns 0, `Any_HasValue` returns false, `Any_Copy`
fails, and `Any_Reset`, `Any_Move`, `Any_Swap`, `Any_Destroy` change
nothing (destroy also frees nothing). -/
theorem c8_null_absent_neutrality :
    Any_Get .null = none ∧ Any_Get .sentinel = none ∧
    Any_GetSize .null = 0 ∧ Any_GetSize .sentinel = 0 ∧
    Any_GetType .null = 0 ∧ Any_GetType .sentinel = 0 ∧
    Any_HasValue .null = false ∧ Any_HasValue .sentinel = false ∧
    (∀ hOk bOk, Any_Copy .null hOk bOk = none ∧ Any_Copy .sentinel hOk bOk = none) ∧
    Any_Reset .null = .null ∧ Any_Reset .sentinel = .sentinel ∧
    (∀ h, Any_Move .null h = (.null, h) ∧ Any_Move h .null = (h, .null) ∧
          Any_Move .sentinel h = (.sentinel, h) ∧ Any_Move h .sentinel = (h, .sentinel) ∧
          Any_Swap .null h = (.null, h) ∧ Any_Swap h .null = (h, .null) ∧
          Any_Swap .sentinel h = (.sentinel, h) ∧ Any_Swap h .sentinel = (h, .sentinel)) ∧
    (∀ count, Any_Destroy .null count = (some .null, count) ∧
              Any_Destroy .sentinel count = (some .sentinel, count)) := by
  refine ⟨rfl, rfl, rfl, rfl, rfl, rfl, rfl, rfl, ?_, rfl, rfl, ?_, ?_⟩
  · intro hOk bOk; exact ⟨rfl, rfl⟩
  · intro h; cases h <;> simp [Any_Move, Any_Swap]
  · intro count; exact ⟨rfl, rfl⟩

/-- `Any_Set` on a live box with a non-NULL source succeeds whenever the
reallocation oracle succeeds (the resize branch needs it; the equal-size
branch never allocates). -/
theorem set_on_live_succeeds (b : AnyBox) (t : Nat) (bs : List Nat) (size : Nat) :
    (Any_Set (.live b) t (some bs) size true).fst = true := by
  simp only [Any_Set]
  split <;> simp

/-- C10: Null is identity-only — `Any_IsNull` holds exactly on the NULL
pointer and the `Any_null` sentinel; a box emptied by `Any_Reset` or left
behind by `Any_Move` (tag 0, length 0, no buffer, unpopulated) is still not
null and remains a live handle on which `Any_Set` can subsequently
succeed. -/
theorem c10_null_is_identity_only :
    (∀ b : AnyBox, Any_IsNull (.live b) = false) ∧
    Any_IsNull .null = true ∧ Any_IsNull .sentinel = true ∧
    (∀ (b : AnyBox) (t : Nat) (P : List Nat),
      Any_IsNull (Any_Reset (.live b)) = false ∧
      (Any_Set (Any_Reset (.live b)) t (some P) P.length true).fst = true) ∧
    (∀ (d s : AnyBox) (t : Nat) (P : List Nat),
      Any_IsNull (Any_Move (.live d) (.live s)).snd = false ∧
      (Any_Set ((Any_Move (.live d) (.live s)).snd) t (some P) P.length true).fst
        = true) := by
  refine ⟨fun b => rfl, rfl, rfl, ?_, ?_⟩
  · intro b t P
    simp only [Any_Reset]
    split <;> exact ⟨rfl, set_on_live_succeeds _ _ _ _⟩
  · intro d s t P
    exact ⟨rfl, set_on_live_succeeds _ _ _ _⟩

/-- C3: Set is atomic on failure — whenever `Any_Set(box, type, value, size)`
reports failure (NULL return: box null/absent, NULL source pointer, or the
resize reallocation failing), the box's observable state is exactly what it
was before the call. -/
theorem c3_set_atomic_on_failure :
    ∀ (h : AnyHandle) (t : Nat) (v : Option (List Nat)) (size : Nat) (aOk : Bool),
      (Any_Set h t v size aOk).fst = false → (Any_Set h t v size aOk).snd = h := by
  intro h t v size aOk hfail
  cases v with
  | none => rfl
  | some bs =>
      cases h with
      | null => rfl
      | sentinel => rfl
      | live b =>
          simp only [Any_Set] at hfail ⊢
          rcases Decidable.em (b.size = size) with hsz | hsz
          · simp [hsz] at hfail
          · rcases Decidable.em (aOk = true) with ha | ha
            · simp [hsz, ha] at hfail
            · simp [hsz, ha]

/-- C3 witness: a failing call (resize reallocation fails) leaves the box
unchanged. -/
theorem c3_set_atomic_on_failure_witness :
    (Any_Set (.live { type := 1, size := 2, value := some [7, 7],
                      has_value := true, is_user_defined := false })
        5 (some [1, 2, 3]) 3 false).fst = false ∧
    (Any_Set (.live { type := 1, size := 2, value := some [7, 7],
                      has_value := true, is_user_defined := false })
        5 (some [1, 2, 3]) 3 false).snd =
      .live { type := 1, size := 2, value := some [7, 7],
              has_value := true, is_user_defined := false } := by
  refine ⟨by decide, c3_set_atomic_on_failure _ _ _ _ _ (by decide)⟩

/-- C1: Round-trip — for every tag `T`, payload `P` of length `L` and every
live box satisfying the length/storage invariant, a successful
`Any_Set(box, T, P, L)` makes `Any_Get` yield exactly the bytes of `P` (the
buffer holds `P`; the NULL buffer can only remain when `P` is empty, in
which case zero bytes are read), `Any_GetType` report `T` and `Any_GetSize`
report `L`; in particular, on a box freshly produced by `Any_Create` —
whatever size it was created with — `Any_Get` returns a buffer holding
exactly `P`. -/
theorem c1_set_get_round_trip :
    (∀ (b : AnyBox) (T : Nat) (P : List Nat) (aOk : Bool),
      wf b = true →
      (Any_Set (.live b) T (some P) P.length aOk).fst = true →
      (Any_Get (Any_Set (.live b) T (some P) P.length aOk).snd = some P ∨
        (P = [] ∧ Any_Get (Any_Set (.live b) T (some P) P.length aOk).snd = none)) ∧
      Any_GetType (Any_Set (.live b) T (some P) P.length aOk).snd = T ∧
      Any_GetSize (Any_Set (.live b) T (some P) P.length aOk).snd = P.length) ∧
    (∀ (t0 s0 : Nat) (hOk bOk : Bool) (c : AnyBox) (T : Nat) (P : List Nat) (aOk : Bool),
      (Any_Create t0 s0 hOk bOk).fst = some c →
      (Any_Set (.live c) T (some P) P.length aOk).fst = true →
      Any_Get (Any_Set (.live c) T (some P) P.length aOk).snd = some P ∧
      Any_GetType (Any_Set (.live c) T (some P) P.length aOk).snd = T ∧
      Any_GetSize (Any_Set (.live c) T (some P) P.length aOk).snd = P.length) := by
  have main : ∀ (b : AnyBox) (T : Nat) (P : List Nat) (aOk : Bool),
      wf b = true →
      (Any_Set (.live b) T (some P) P.length aOk).fst = true →
      (Any_Get (Any_Set (.live b) T (some P) P.length aOk).snd = some P ∨
        (P = [] ∧ Any_Get (Any_Set (.live b) T (some P) P.length aOk).snd = none)) ∧
      Any_GetType (Any_Set (.live b) T (some P) P.length aOk).snd = T ∧
      Any_GetSize (Any_Set (.live b) T (some P) P.length aOk).snd = P.length := by
    intro b T P aOk hwf hsucc
    rcases Decidable.em (b.size = P.length) with hsz | hsz
    · cases hv : b.value with
      | some old =>
          have hlen : old.length = b.size := by
            simpa [wf, hv] using hwf
          have hdrop : List.drop P.length old = [] := by
            rw [← hlen.trans hsz]; simp
          refine ⟨Or.inl ?_, ?_, ?_⟩ <;>
            simp [Any_Set, Any_Get, Any_GetType, Any_Type, Any_GetSize, Any_Size,
                  hsz, hv, hdrop]
      | none =>
          have hsize0 : b.size = 0 := by
            simpa [wf, hv] using hwf
          have hP : P = [] := List.length_eq_zero.mp (by omega)
          refine ⟨Or.inr ⟨hP, ?_⟩, ?_, ?_⟩ <;>
            simp [Any_Set, Any_Get, Any_GetType, Any_Type, Any_GetSize, Any_Size,
                  hsz, hv]
    · cases aOk with
      | false => simp [Any_Set, hsz] at hsucc
      | true =>
          refine ⟨Or.inl ?_, ?_, ?_⟩ <;>
            simp [Any_Set, Any_Get, Any_GetType, Any_Type, Any_GetSize, Any_Size, hsz]
  refine ⟨main, ?_⟩
  intro t0 s0 hOk bOk c T P aOk hcreate hsucc
  have hc : c = { type := t0, size := s0, value := some (List.replicate s0 0),
                  has_value := false, is_user_defined := false } := by
    cases hOk <;> cases bOk <;> simp [Any_Create] at hcreate
    exact hcreate.symm
  subst hc
  rcases Decidable.em (s0 = P.length) with hsz | hsz
  · refine ⟨?_, ?_, ?_⟩ <;>
      simp [Any_Set, Any_Get, Any_GetType, Any_Type, Any_GetSize, Any_Size, hsz]
  · cases aOk with
    | false => simp [Any_Set, hsz] at hsucc
    | true =>
        refine ⟨?_, ?_, ?_⟩ <;>
          simp [Any_Set, Any_Get, Any_GetType, Any_Type, Any_GetSize, Any_Size, hsz]

/-- C1 witness: the round-trip at concrete inputs — a live populated box
receiving tag 3 / payload `[9]`, and a box created by `Any_Create 5 0`
receiving tag 7 / payload `[4]`. -/
theorem c1_set_get_round_trip_witness :
    (wf (AnyBox.mk 1 1 (some [7]) true false) = true ∧
     (Any_Set (.live (AnyBox.mk 1 1 (some [7]) true false))
        3 (some [9]) 1 true).fst = true ∧
     ((Any_Get (Any_Set (.live (AnyBox.mk 1 1 (some [7]) true false))
          3 (some [9]) 1 true).snd = some [9] ∨
       (([9] : List Nat) = [] ∧
        Any_Get (Any_Set (.live (AnyBox.mk 1 1 (some [7]) true false))
          3 (some [9]) 1 true).snd = none)) ∧
      Any_GetType (Any_Set (.live (AnyBox.mk 1 1 (some [7]) true false))
        3 (some [9]) 1 true).snd = 3 ∧
      Any_GetSize (Any_Set (.live (AnyBox.mk 1 1 (some [7]) true false))
        3 (some [9]) 1 true).snd = 1)) ∧
    ((Any_Create 5 0 true true).fst = some (AnyBox.mk 5 0 (some []) false false) ∧
     (Any_Set (.live (AnyBox.mk 5 0 (some []) false false))
        7 (some [4]) 1 true).fst = true ∧
     Any_Get (Any_Set (.live (AnyBox.mk 5 0 (some []) false false))
        7 (some [4]) 1 true).snd = some [4] ∧
     Any_GetType (Any_Set (.live (AnyBox.mk 5 0 (some []) false false))
        7 (some [4]) 1 true).snd = 7 ∧
     Any_GetSize (Any_Set (.live (AnyBox.mk 5 0 (some []) false false))
        7 (some [4]) 1 true).snd = 1) := by
  refine ⟨⟨by decide, by decide, ?_⟩, ⟨by decide, by decide, ?_, ?_, ?_⟩⟩
  · exact c1_set_get_round_trip.1 (AnyBox.mk 1 1 (some [7]) true false)
      3 [9] true (by decide) (by decide)
  all_goals
    have h2 := c1_set_get_round_trip.2 5 0 true true
      (AnyBox.mk 5 0 (some []) false false) 7 [4] true (by decide) (by decide)
  · exact h2.1
  · exact h2.2.1
  · exact h2.2.2

/-- C4 counterexample: the claim says a null/absent operand — including the
`Any_null` sentinel — always compares unequal, but `Any_Equals` only guards
against NULL pointers, so the identity short-circuit `self == other` makes
the sentinel compared with itself return true, not false. -/
theorem c4_counterexample_sentinel_self_equal :
    Any_Equals (fun _ => Any_null_value) .sentinel .sentinel = true := rfl

/-- C4 (amended): a NULL-pointer operand always makes `Any_Equals` return
false, and every non-NULL operand — including the `Any_null` sentinel —
compared to itself by identity is equal. -/
theorem c4_equals_null_amended :
    ∀ (H : Nat → AnyBox) (a b : AnyPtr),
      ((a = .null ∨ b = .null) → Any_Equals H a b = false) ∧
      (a ≠ AnyPtr.null → Any_Equals H a a = true) := by
  intro H a b
  constructor
  · rintro (rfl | rfl)
    · cases b <;> rfl
    · cases a <;> rfl
  · intro ha
    cases a with
    | null => exact absurd rfl ha
    | sentinel => rfl
    | live i => simp [Any_Equals]

/-- C4 witness: a NULL second operand gives false; the sentinel equals
itself. -/
theorem c4_equals_null_amended_witness :
    Any_Equals (fun _ => Any_null_value) .sentinel .null = false ∧
    Any_Equals (fun _ => Any_null_value) .sentinel .sentinel = true := by
  refine ⟨(c4_equals_null_amended (fun _ => Any_null_value) .sentinel .null).1
            (Or.inr rfl),
          (c4_equals_null_amended (fun _ => Any_null_value) .sentinel .sentinel).2
            (by decide)⟩

/-- C5: Copy contract — `Any_Copy` fails on a NULL or sentinel handle and on
an unpopulated box; on a populated live box (with the allocations
succeeding) it returns a new box with the same tag, same length, a
byte-for-byte copy of the payload, marked populated, and that new box at
any fresh address compares equal to the source under `Any_Equals`. -/
theorem c5_copy_contract :
    (∀ hOk bOk, Any_Copy .null hOk bOk = none ∧ Any_Copy .sentinel hOk bOk = none) ∧
    (∀ (b : AnyBox) (hOk bOk : Bool), b.has_value = false →
      Any_Copy (.live b) hOk bOk = none) ∧
    (∀ b : AnyBox, b.has_value = true →
      ∃ c, Any_Copy (.live b) true true = some c ∧
        c.type = b.type ∧ c.size = b.size ∧ c.has_value = true ∧
        c.value = some (List.take b.size (b.value.getD [])) ∧
        ∀ (H : Nat → AnyBox) (i j : Nat), i ≠ j → H i = b → H j = c →
          Any_Equals H (.live i) (.live j) = true) := by
  refine ⟨fun hOk bOk => ⟨rfl, rfl⟩, ?_, ?_⟩
  · intro b hOk bOk hb
    simp [Any_Copy, hb]
  · intro b hb
    refine ⟨AnyBox.mk b.type b.size (some (List.take b.size (b.value.getD [])))
              true false, ?_, rfl, rfl, rfl, rfl, ?_⟩
    · simp [Any_Copy, hb, Any_Create]
    · intro H i j hij hHi hHj
      simp [Any_Equals, derefC, memcmpEqZero, hij, hHi, hHj, hb, List.take_take]

/-- C5 witness: copying an unpopulated box fails; copying a populated box
with payload `[1, 2]` succeeds with the stated contract. -/
theorem c5_copy_contract_witness :
    (AnyBox.mk 2 0 (some []) false true).has_value = false ∧
    Any_Copy (.live (AnyBox.mk 2 0 (some []) false true)) true true = none ∧
    (AnyBox.mk 3 2 (some [1, 2]) true false).has_value = true ∧
    ∃ c, Any_Copy (.live (AnyBox.mk 3 2 (some [1, 2]) true false)) true true
          = some c ∧
      c.type = (AnyBox.mk 3 2 (some [1, 2]) true false).type ∧
      c.size = (AnyBox.mk 3 2 (some [1, 2]) true false).size ∧
      c.has_value = true ∧
      c.value = some (List.take (AnyBox.mk 3 2 (some [1, 2]) true false).size
        ((AnyBox.mk 3 2 (some [1, 2]) true false).value.getD [])) ∧
      ∀ (H : Nat → AnyBox) (i j : Nat), i ≠ j →
        H i = AnyBox.mk 3 2 (some [1, 2]) true false → H j = c →
        Any_Equals H (.live i) (.live j) = true := by
  exact ⟨by decide, c5_copy_contract.2.1 _ true true (by decide), by decide,
         c5_copy_contract.2.2 _ (by decide)⟩

/-- C9: Length/storage invariant — in every box state reachable from
`Any_Create` through any sequence of `Any_Set`, `Any_Reset`, `Any_Move`,
`Any_Swap` and `Any_Copy`, the recorded length equals the byte size of the
owned buffer, and an absent buffer comes with recorded length 0. -/
theorem c9_length_storage_invariant :
    ∀ b : AnyBox, Reachable b → wf b = true := by
  intro b0 hb0
  induction hb0 with
  | create t s hOk bOk b h =>
      cases hOk <;> cases bOk <;> simp [Any_Create] at h
      simp [wf, ← h]
  | set b t bs size aOk b' hb hlen h ih =>
      rcases Decidable.em (b.size = size) with hsz | hsz
      · cases hv : b.value with
        | some old =>
            have hol : old.length = b.size := by simpa [wf, hv] using ih
            simp [Any_Set, hsz, hv] at h
            simp [wf, ← h]
            omega
        | none =>
            have hs0 : b.size = 0 := by simpa [wf, hv] using ih
            simp [Any_Set, hsz, hv] at h
            simp [wf, ← h]
            omega
      · cases aOk with
        | false =>
            simp [Any_Set, hsz] at h
            rw [← h]; exact ih
        | true =>
            simp [Any_Set, hsz] at h
            simp [wf, ← h]
            omega
  | reset b b' hb h ih =>
      cases hv : b.has_value with
      | true =>
          simp [Any_Reset, hv] at h
          simp [wf, ← h]
      | false =>
          simp [Any_Reset, hv] at h
          rw [← h]; exact ih
  | move_dest d s d' s2 hd hs h ihd ihs =>
      simp only [Any_Move, Prod.mk.injEq, AnyHandle.live.injEq] at h
      have hwf : wf d' = wf s := by rw [← h.1]; simp [wf]
      rw [hwf]; exact ihs
  | move_src d s s' d2 hd hs h ihd ihs =>
      simp only [Any_Move, Prod.mk.injEq, AnyHandle.live.injEq] at h
      simp [wf, ← h.2]
  | swap_fst a b a' b2 ha hb h iha ihb =>
      simp only [Any_Swap, Prod.mk.injEq, AnyHandle.live.injEq] at h
      have hwf : wf a' = wf b := by rw [← h.1]; simp [wf]
      rw [hwf]; exact ihb
  | swap_snd a b b' a2 ha hb h iha ihb =>
      simp only [Any_Swap, Prod.mk.injEq, AnyHandle.live.injEq] at h
      have hwf : wf b' = wf a := by rw [← h.2]; simp [wf]
      rw [hwf]; exact iha
  | copy b c hOk bOk hb h ih =>
      rcases Decidable.em (b.has_value = true) with hv | hv
      · cases hbv : b.value with
        | some old =>
            have hol : old.length = b.size := by simpa [wf, hbv] using ih
            cases hOk <;> cases bOk <;> simp [Any_Copy, hv, hbv, Any_Create] at h
            simp [wf, ← h]
            omega
        | none =>
            have hs0 : b.size = 0 := by simpa [wf, hbv] using ih
            cases hOk <;> cases bOk <;> simp [Any_Copy, hv, hbv, Any_Create] at h
            simp [wf, ← h, hs0]
      · simp [Any_Copy, hv] at h

/-- C9 witness: a box created by `Any_Create 0 2` is reachable and satisfies
the length/storage invariant. -/
theorem c9_length_storage_invariant_witness :
    Reachable (AnyBox.mk 0 2 (some [0, 0]) false false) ∧
    wf (AnyBox.mk 0 2 (some [0, 0]) false false) = true := by
  have hr : Reachable (AnyBox.mk 0 2 (some [0, 0]) false false) :=
    Reachable.create 0 2 true true _ (by decide)
  exact ⟨hr, c9_length_storage_invariant _ hr⟩

end AnySpec
